import Mathlib

/-!
Shallow embedding of `src/manager/printermanager.go` (package `manager` of
cups-connector): the printer manager's job pipeline (`processJob`,
`assembleJob`, `followJob`), the in-flight job set, the reconciliation
round (`applyDiff`, the collection loop of `syncPrinters`), the event loop
of `syncPrintersPeriodically`, and the connector XMPP ping-interval
computation of `NewPrinterManager`.

Go strings are modelled as byte lists (`GoString`), because the source
measures and truncates titles in bytes.  External adapter calls (cloud and
CUPS) are modelled by an environment record holding each call's result;
the externally visible calls made by the manager are recorded in a trace
(`Call`).  Types from the `lib` package (not under `src/`) are modelled
from the spec where noted.
-/

/-- Go strings, viewed as their byte sequences (Go `len` and slicing are
byte-wise). -/
abbrev GoString := List Nat

/-- Byte list of a literal ASCII string, for writing Go string literals. -/
def goBytes (s : String) : GoString :=
  s.data.map Char.toNat

/-- Modelled from the spec: the cloud job states (§4.6 of the spec names
exactly InProgress, Done and Aborted); `lib` is not under `src/`. -/
inductive GCPJobState
  | inProgress
  | done
  | aborted
  deriving DecidableEq

/-- Modelled from the spec: the job-state causes reported to the cloud
(`lib.GCPJobOther`, `lib.GCPJobInvalidTicket`, `lib.GCPJobPrintFailure`);
the source's numeric literal `100` (no specific cause, returned by a
successful `assembleJob`) is the constructor `noCause`. -/
inductive GCPJobStateCause
  | other
  | invalidTicket
  | printFailure
  | noCause
  deriving DecidableEq

/-- Modelled from the spec: local spooler job states (§8 scenario 5 of the
spec names Held, Processing, Completed; other CUPS states map to Aborted).
`zeroState` models the Go zero value of the type, held by the follow
loop's register before the first poll. -/
inductive CUPSJobState
  | zeroState
  | held
  | processing
  | completed
  | stopped
  deriving DecidableEq

/-- The fields of `lib.Printer` that the printer manager reads: the CUPS
name, the GCP id, and the XMPP ping interval (a Go `time.Duration`,
an `int64` number of nanoseconds, modelled as `Int`). -/
structure Printer where
  name : GoString
  gcpID : GoString
  xmppPingInterval : Int
  deriving DecidableEq

/-- The empty sentinel `lib.Printer{}` sent by `applyDiff` on the paths
that emit no printer; its `Name` is the empty string. -/
def emptyPrinter : Printer :=
  { name := [], gcpID := [], xmppPingInterval := 0 }

/-- A job ticket: the options map fetched from the cloud, opaque to the
manager (it is only passed through to CUPS). -/
abbrev Ticket := List (GoString × GoString)

/-- The fields of `lib.Job` read by the printer manager. -/
structure Job where
  gcpPrinterID : GoString
  gcpJobID : GoString
  fileURL : GoString
  title : GoString
  ownerID : GoString

/-- Modelled from the spec: `lib.ConcurrentPrinterMap` (§4.2), a mapping
from GCP id to printer with `Get`, `GetAll` and atomic `Refresh`;
`lib` is not under `src/`. -/
structure ConcurrentPrinterMap where
  printers : List Printer
  deriving DecidableEq

/-- Modelled from the spec: `Get(cloudID) → (Printer, found)`. -/
def ConcurrentPrinterMap.get (m : ConcurrentPrinterMap) (gcpID : GoString) :
    Option Printer :=
  m.printers.find? (fun p => p.gcpID == gcpID)

/-- Modelled from the spec: `GetAll()` returns a consistent snapshot. -/
def ConcurrentPrinterMap.getAll (m : ConcurrentPrinterMap) : List Printer :=
  m.printers

/-- Modelled from the spec: `Refresh` atomically replaces the mapping. -/
def ConcurrentPrinterMap.refresh (_ : ConcurrentPrinterMap)
    (printers : List Printer) : ConcurrentPrinterMap :=
  { printers := printers }

/-- The mutable state of a `PrinterManager` that the job pipeline touches:
the printer table, the job counters (`jobsDone`, `jobsError`), the
in-flight job set, and the `jobFullUsername` configuration flag. -/
structure PMState where
  gcpPrintersByGCPID : ConcurrentPrinterMap
  jobsDone : Nat
  jobsError : Nat
  jobsInFlight : Finset GoString
  jobFullUsername : Bool
  deriving DecidableEq

/-- Externally visible adapter calls recorded by the model: job control
updates to the cloud, CUPS print submissions, and temp-file removals. -/
inductive Call
  | control (gcpJobID : GoString) (state : GCPJobState)
      (cause : GCPJobStateCause) (pages : Nat)
  | print (printerName pdfFile jobTitle ownerID : GoString) (options : Ticket)
  | removeFile (fileName : GoString)
  deriving DecidableEq

/-- Embeds `incrementJobsProcessed` (lines 316-325): bump `jobsDone` on
success, `jobsError` otherwise. -/
def incrementJobsProcessed (pm : PMState) (success : Bool) : PMState :=
  if success then
    { pm with jobsDone := pm.jobsDone + 1 }
  else
    { pm with jobsError := pm.jobsError + 1 }

/-- Embeds `addInFlightJob` (lines 330-341): returns `true` and inserts the
GCP job id if it was absent, returns `false` if it was already present. -/
def addInFlightJob (pm : PMState) (gcpJobID : GoString) : Bool × PMState :=
  if gcpJobID ∈ pm.jobsInFlight then
    (false, pm)
  else
    (true, { pm with jobsInFlight := insert gcpJobID pm.jobsInFlight })

/-- Embeds `deleteInFlightJob` (lines 344-349). -/
def deleteInFlightJob (pm : PMState) (gcpID : GoString) : PMState :=
  { pm with jobsInFlight := pm.jobsInFlight.erase gcpID }

/-- Embeds `strings.Split` for a single-byte separator, as used at line
432; `Split` never returns an empty slice, so indexing `[0]` is safe. -/
def splitOnByte (sep : Nat) : GoString → List GoString
  | [] => [[]]
  | b :: rest =>
    match splitOnByte sep rest with
    | [] => [[b]]
    | s :: ss => if b = sep then [] :: s :: ss else (b :: s) :: ss

/-- Embeds lines 430-433 of `processJob`: when `jobFullUsername` is false
the owner id is `strings.Split(ownerID, "@")[0]` (byte 64 is `@`). -/
def submittedOwner (jobFullUsername : Bool) (ownerID : GoString) : GoString :=
  if !jobFullUsername then (splitOnByte 64 ownerID).headD [] else ownerID

/-- Embeds lines 438-441 of `processJob`: the CUPS job title is
`fmt.Sprintf("gcp:%s %s", job.GCPJobID, job.Title)`, truncated to its
first 255 bytes when longer. -/
def mkJobTitle (gcpJobID title : GoString) : GoString :=
  let jobTitle := goBytes "gcp:" ++ gcpJobID ++ goBytes " " ++ title
  if jobTitle.length > 255 then jobTitle.take 255 else jobTitle

/-- Results of the fallible external calls made during one `processJob`
run: the ticket fetch, the temp-file creation, the PDF download, the CUPS
print submission, and the successive CUPS job-state polls of the follow
loop. -/
structure JobEnv where
  ticketResult : Except GoString Ticket
  createTempFileResult : Except GoString GoString
  downloadResult : Except GoString Unit
  printResult : Except GoString Nat
  polls : List (Except GoString (CUPSJobState × Nat))

/-- Message returned by `assembleJob` when the printer is missing from the
table (line 362); only its non-emptiness matters to `processJob`. -/
def msgPrinterNotFound : GoString := goBytes "Failed to find GCP printer"

/-- Message for a failed ticket fetch (line 369). -/
def msgTicketFailed : GoString := goBytes "Failed to get a ticket for job"

/-- Message for a failed temp-file creation (line 376). -/
def msgTempFileFailed : GoString :=
  goBytes "Failed to create a temporary file for job"

/-- Message for a failed PDF download (line 390). -/
def msgDownloadFailed : GoString := goBytes "Failed to download PDF for job"

/-- Embeds `assembleJob` (lines 358-398).  Returns the printer, the
ticket, the temp-file name, the error message (empty on success, mirroring
the Go empty-string convention), the job-state cause, and the trace of
calls it made itself (the download-failure path removes the temp file
before returning, line 388; the success path returns cause `100`,
modelled as `noCause`). -/
def assembleJob (pm : PMState) (env : JobEnv) (job : Job) :
    Printer × Ticket × GoString × GoString × GCPJobStateCause × List Call :=
  match pm.gcpPrintersByGCPID.get job.gcpPrinterID with
  | none =>
    (emptyPrinter, [], [], msgPrinterNotFound, GCPJobStateCause.other, [])
  | some printer =>
    match env.ticketResult with
    | Except.error _ =>
      (emptyPrinter, [], [], msgTicketFailed, GCPJobStateCause.invalidTicket, [])
    | Except.ok options =>
      match env.createTempFileResult with
      | Except.error _ =>
        (emptyPrinter, [], [], msgTempFileFailed, GCPJobStateCause.other, [])
      | Except.ok pdfFile =>
        match env.downloadResult with
        | Except.error _ =>
          (emptyPrinter, [], [], msgDownloadFailed, GCPJobStateCause.printFailure,
            [Call.removeFile pdfFile])
        | Except.ok _ =>
          (printer, options, pdfFile, [], GCPJobStateCause.noCause, [])

/-- The three registers of `followJob` (lines 465-467): the last seen CUPS
state, the last reported GCP state, and the last seen page count. -/
structure FollowRegs where
  cupsState : CUPSJobState
  gcpState : GCPJobState
  pages : Nat
  deriving DecidableEq

/-- Outcome of one iteration of the follow loop: either the loop `break`s
(carrying the updated manager state and the calls of the iteration), or it
continues with updated registers. -/
inductive FollowStepResult
  | exit (pm : PMState) (calls : List Call)
  | next (regs : FollowRegs) (pm : PMState) (calls : List Call)

/-- Manager state carried by a follow-step outcome. -/
def FollowStepResult.pm : FollowStepResult → PMState
  | FollowStepResult.exit pm _ => pm
  | FollowStepResult.next _ pm _ => pm

/-- Calls made by a follow-step iteration. -/
def FollowStepResult.calls : FollowStepResult → List Call
  | FollowStepResult.exit _ calls => calls
  | FollowStepResult.next _ _ calls => calls

/-- Whether the iteration left the loop. -/
def FollowStepResult.isExit : FollowStepResult → Bool
  | FollowStepResult.exit _ _ => true
  | FollowStepResult.next _ _ _ => false

/-- Embeds one iteration of the `followJob` loop body (lines 472-502).
`toGCP` is `lib.CUPSJobState.GCPJobState()` (the `lib` mapping is not
under `src/`, so it is a parameter).  A poll failure emits
`Aborted/Other` with the last known page count, counts an error and
leaves the loop; otherwise a control update is emitted exactly when the
CUPS state or the page count changed, and the loop is left exactly when
the stored GCP state is not `InProgress`, counting the job done or
errored. -/
def followStep (toGCP : CUPSJobState → GCPJobState × GCPJobStateCause)
    (job : Job) (regs : FollowRegs) (pm : PMState)
    (poll : Except GoString (CUPSJobState × Nat)) : FollowStepResult :=
  match poll with
  | Except.error _ =>
    FollowStepResult.exit (incrementJobsProcessed pm false)
      [Call.control job.gcpJobID GCPJobState.aborted GCPJobStateCause.other
        regs.pages]
  | Except.ok (latestCUPSState, latestPages) =>
    let (regs', stepCalls) :=
      if latestCUPSState ≠ regs.cupsState ∨ latestPages ≠ regs.pages then
        let (gcpState, gcpCause) := toGCP latestCUPSState
        ({ cupsState := latestCUPSState, gcpState := gcpState,
           pages := latestPages },
         [Call.control job.gcpJobID gcpState gcpCause latestPages])
      else
        (regs, [])
    if regs'.gcpState ≠ GCPJobState.inProgress then
      if regs'.gcpState = GCPJobState.done then
        FollowStepResult.exit (incrementJobsProcessed pm true) stepCalls
      else
        FollowStepResult.exit (incrementJobsProcessed pm false) stepCalls
    else
      FollowStepResult.next regs' pm stepCalls

/-- The follow loop over a finite list of poll results.  Returns `none`
when the poll list is exhausted with the loop still running (the real
ticker is endless, so a run that terminates consumes a finite prefix). -/
def followLoop (toGCP : CUPSJobState → GCPJobState × GCPJobStateCause)
    (job : Job) (regs : FollowRegs) (pm : PMState) :
    List (Except GoString (CUPSJobState × Nat)) → Option (PMState × List Call)
  | [] => none
  | poll :: rest =>
    match followStep toGCP job regs pm poll with
    | FollowStepResult.exit pm' calls => some (pm', calls)
    | FollowStepResult.next regs' pm' calls =>
      match followLoop toGCP job regs' pm' rest with
      | none => none
      | some (pmFinal, callsRest) => some (pmFinal, calls ++ callsRest)

/-- Embeds `followJob` (lines 464-503).  The registers start at the Go
zero values of the local variables (lines 465-467); the GCP-state
register is modelled as starting at `inProgress`, the mapped state of a
job that has not yet reported a terminal state (`lib` is not under
`src/`, so the zero value of its state type is modelled from the spec). -/
def followJob (toGCP : CUPSJobState → GCPJobState × GCPJobStateCause)
    (pm : PMState) (job : Job)
    (polls : List (Except GoString (CUPSJobState × Nat))) :
    Option (PMState × List Call) :=
  followLoop toGCP job
    { cupsState := CUPSJobState.zeroState, gcpState := GCPJobState.inProgress,
      pages := 0 }
    pm polls

/-- Embeds `processJob` (lines 408-457).  Returns the final manager state
and the trace of calls, or `none` when the follow loop outlives the
supplied poll results (the processor has not exited).  The deferred
`deleteInFlightJob` (line 415) runs on every exit path; the deferred
`os.Remove` (line 428) is installed only after a successful assemble and
so appears at the end of every trace that passes assembly. -/
def processJob (toGCP : CUPSJobState → GCPJobState × GCPJobStateCause)
    (pm : PMState) (env : JobEnv) (job : Job) :
    Option (PMState × List Call) :=
  match addInFlightJob pm job.gcpJobID with
  | (false, pm') => some (pm', [])
  | (true, pm') =>
    let (printer, options, pdfFile, message, gcpJobStateCause, assembleCalls) :=
      assembleJob pm' env job
    if message ≠ [] then
      some (deleteInFlightJob (incrementJobsProcessed pm' false) job.gcpJobID,
        assembleCalls ++
          [Call.control job.gcpJobID GCPJobState.aborted gcpJobStateCause 0])
    else
      let ownerID := submittedOwner pm'.jobFullUsername job.ownerID
      let jobTitle := mkJobTitle job.gcpJobID job.title
      match env.printResult with
      | Except.error _ =>
        some (deleteInFlightJob (incrementJobsProcessed pm' false) job.gcpJobID,
          assembleCalls ++
            [Call.print printer.name pdfFile jobTitle ownerID options,
             Call.control job.gcpJobID GCPJobState.aborted
               GCPJobStateCause.printFailure 0,
             Call.removeFile pdfFile])
      | Except.ok _ =>
        match followJob toGCP pm' job env.polls with
        | none => none
        | some (pmAfterFollow, followCalls) =>
          some (deleteInFlightJob pmAfterFollow job.gcpJobID,
            assembleCalls ++
              [Call.print printer.name pdfFile jobTitle ownerID options] ++
              followCalls ++ [Call.removeFile pdfFile])

/-- The diff operations of `lib.PrinterDiff` (`RegisterPrinter`,
`UpdatePrinter`, `DeletePrinter`, `NoChangeToPrinter`); `lib` is not
under `src/`, the constructors are those matched by `applyDiff`. -/
inductive PrinterDiffOperation
  | registerPrinter
  | updatePrinter
  | deletePrinter
  | noChangeToPrinter
  deriving DecidableEq

/-- The fields of `lib.PrinterDiff` read by `applyDiff`. -/
structure PrinterDiff where
  operation : PrinterDiffOperation
  printer : Printer
  deriving DecidableEq

/-- Results of the external calls one `applyDiff` worker may make. -/
structure DiffEnv where
  getPPDResult : Except GoString GoString
  registerResult : Except GoString Unit
  canShare : Bool
  shareResult : Except GoString Unit
  updateResult : Except GoString Unit
  deleteResult : Except GoString Unit

/-- Embeds `applyDiff` (lines 201-258) as the list of values the worker
sends on its result channel.  Register: a `GetPPD` or `Register` failure
logs and `break`s to the final sentinel send (line 257); on success the
share step only logs (a `Share` failure is non-fatal) and the registered
printer is sent.  Update: the printer is sent whether `Update` succeeded
or failed (lines 234-241 log either way and fall through to the send).
Delete: both outcomes reach the sentinel send.  NoChange: the printer is
sent. -/
def applyDiff (env : DiffEnv) (diff : PrinterDiff) : List Printer :=
  match diff.operation with
  | PrinterDiffOperation.registerPrinter =>
    match env.getPPDResult with
    | Except.error _ => [emptyPrinter]
    | Except.ok _ =>
      match env.registerResult with
      | Except.error _ => [emptyPrinter]
      | Except.ok _ => [diff.printer]
  | PrinterDiffOperation.updatePrinter => [diff.printer]
  | PrinterDiffOperation.deletePrinter => [emptyPrinter]
  | PrinterDiffOperation.noChangeToPrinter => [diff.printer]

/-- Embeds the collection loop of `syncPrinters` (lines 187-193): one
value is received per diff, and values with an empty `Name` are dropped. -/
def collectPrinters : List Printer → List Printer
  | [] => []
  | p :: rest =>
    if p.name ≠ [] then p :: collectPrinters rest
    else collectPrinters rest

/-- Embeds the diff-application half of a `syncPrinters` round (lines
183-196): apply every diff, collect the emitted printers (the per-diff
workers run in parallel; the model fixes one receive order, which the
filter-and-refresh result does not depend on up to order), and refresh
the printer table with the collected printers. -/
def syncPrintersRound (diffs : List (PrinterDiff × DiffEnv))
    (table : ConcurrentPrinterMap) : ConcurrentPrinterMap :=
  let received := diffs.flatMap (fun de => applyDiff de.2 de.1)
  let currentPrinters := collectPrinters received
  table.refresh currentPrinters

/-- The three events multiplexed by the `select` of
`syncPrintersPeriodically` (lines 138-161): a timer tick, a printer
ping-interval update, and a quit request. -/
inductive LoopEvent
  | tick
  | printerUpdate (gcpID : GoString)
  | quit

/-- Actions observable from the reconciliation loop: a `syncPrinters`
round, the handling of one printer ping-interval update, and the
acknowledgement sent back on the quit channel. -/
inductive LoopCall
  | syncRound
  | printerPing (gcpID : GoString)
  | ackQuit
  deriving DecidableEq

/-- Embeds the event loop of `syncPrintersPeriodically` (lines 133-164)
over a finite event sequence.  The quit case (lines 158-160) sends the
acknowledgement and executes `break`, which in Go leaves only the
enclosing `select`, not the `for` loop: the loop therefore keeps
processing subsequent events after acknowledging quit. -/
def syncPrintersPeriodicallyLoop : List LoopEvent → List LoopCall
  | [] => []
  | LoopEvent.tick :: rest =>
    LoopCall.syncRound :: syncPrintersPeriodicallyLoop rest
  | LoopEvent.printerUpdate gcpID :: rest =>
    LoopCall.printerPing gcpID :: syncPrintersPeriodicallyLoop rest
  | LoopEvent.quit :: rest =>
    LoopCall.ackQuit :: syncPrintersPeriodicallyLoop rest

/-- Go `math.MaxInt64`, the initial value of the connector ping-interval
minimum (line 79); a `time.Duration` of this value is effectively
unbounded. -/
def maxInt64 : Int := 2 ^ 63 - 1

/-- Embeds lines 79-84 of `NewPrinterManager`: the connector XMPP ping
interval starts at `math.MaxInt64` and is lowered to every printer
interval smaller than the running value. -/
def connectorXMPPPingInterval (printers : List Printer) : Int :=
  printers.foldl
    (fun acc p =>
      if p.xmppPingInterval < acc then p.xmppPingInterval else acc)
    maxInt64

/-! Concrete sample data used by the witness and counterexample
theorems. -/

/-- A concrete CUPS-to-GCP state mapping for witnesses: `completed` maps
to `Done`, `stopped` to `Aborted`, every other state to `InProgress`. -/
def mapW : CUPSJobState → GCPJobState × GCPJobStateCause
  | CUPSJobState.completed => (GCPJobState.done, GCPJobStateCause.noCause)
  | CUPSJobState.stopped => (GCPJobState.aborted, GCPJobStateCause.other)
  | _ => (GCPJobState.inProgress, GCPJobStateCause.noCause)

/-- A sample job; its owner id is the three bytes `o@x`. -/
def jobW : Job :=
  { gcpPrinterID := [112], gcpJobID := [106], fileURL := [117],
    title := [116], ownerID := [111, 64, 120] }

/-- A sample printer whose GCP id matches `jobW`. -/
def printerW : Printer :=
  { name := [110], gcpID := [112], xmppPingInterval := 5 }

/-- A manager state with an empty printer table and no jobs in flight. -/
def pmW : PMState :=
  { gcpPrintersByGCPID := { printers := [] }, jobsDone := 0, jobsError := 0,
    jobsInFlight := ∅, jobFullUsername := false }

/-- A manager state whose table contains `printerW`. -/
def pmTW : PMState :=
  { pmW with gcpPrintersByGCPID := { printers := [printerW] } }

/-- An environment in which every external call succeeds. -/
def envW : JobEnv :=
  { ticketResult := Except.ok [], createTempFileResult := Except.ok [102],
    downloadResult := Except.ok (), printResult := Except.ok 7,
    polls := [Except.ok (CUPSJobState.completed, 1)] }

/-- An environment whose PDF download fails. -/
def envDLW : JobEnv :=
  { envW with downloadResult := Except.error [101] }

/-- An environment whose CUPS print submission fails. -/
def envPFW : JobEnv :=
  { envW with printResult := Except.error [101] }

/-! Helper lemmas about state preservation along the job pipeline. -/

theorem incrementJobsProcessed_jobsInFlight (pm : PMState) (b : Bool) :
    (incrementJobsProcessed pm b).jobsInFlight = pm.jobsInFlight := by
  unfold incrementJobsProcessed
  split <;> rfl

theorem followStep_pm_jobsInFlight
    (toGCP : CUPSJobState → GCPJobState × GCPJobStateCause) (job : Job)
    (regs : FollowRegs) (pm : PMState)
    (poll : Except GoString (CUPSJobState × Nat)) :
    (followStep toGCP job regs pm poll).pm.jobsInFlight = pm.jobsInFlight := by
  unfold followStep
  cases poll with
  | error e =>
    simp [FollowStepResult.pm, incrementJobsProcessed_jobsInFlight]
  | ok sp =>
    obtain ⟨s, p⟩ := sp
    dsimp only
    split <;> split
    all_goals first
      | (split <;>
          simp [FollowStepResult.pm, incrementJobsProcessed_jobsInFlight])
      | simp [FollowStepResult.pm]

theorem followLoop_jobsInFlight
    (toGCP : CUPSJobState → GCPJobState × GCPJobStateCause) (job : Job) :
    ∀ (polls : List (Except GoString (CUPSJobState × Nat)))
      (regs : FollowRegs) (pm pm' : PMState) (calls : List Call),
      followLoop toGCP job regs pm polls = some (pm', calls) →
      pm'.jobsInFlight = pm.jobsInFlight := by
  intro polls
  induction polls with
  | nil =>
    intro regs pm pm' calls h
    simp [followLoop] at h
  | cons poll rest ih =>
    intro regs pm pm' calls h
    unfold followLoop at h
    cases hs : followStep toGCP job regs pm poll with
    | exit pmE callsE =>
      rw [hs] at h
      have hpm := followStep_pm_jobsInFlight toGCP job regs pm poll
      rw [hs] at hpm
      cases h
      exact hpm
    | next regs' pmN callsN =>
      rw [hs] at h
      dsimp only at h
      have hpm := followStep_pm_jobsInFlight toGCP job regs pm poll
      rw [hs] at hpm
      cases hrec : followLoop toGCP job regs' pmN rest with
      | none => rw [hrec] at h; cases h
      | some r =>
        obtain ⟨pmF, callsF⟩ := r
        rw [hrec] at h
        simp only [Option.some.injEq, Prod.mk.injEq] at h
        obtain ⟨h1, h2⟩ := h
        exact h1 ▸ ((ih regs' pmN pmF callsF hrec).trans hpm)

/-! Path characterizations of `processJob` for a job that is not yet in
flight.  In each, the state reached is written out with the in-flight
insertion (line 409) made explicit, so that the exit paths' deferred
removal (line 415) is visible. -/

theorem processJob_printer_missing
    (toGCP : CUPSJobState → GCPJobState × GCPJobStateCause)
    (pm : PMState) (env : JobEnv) (job : Job)
    (h : job.gcpJobID ∉ pm.jobsInFlight)
    (hg : pm.gcpPrintersByGCPID.get job.gcpPrinterID = none) :
    processJob toGCP pm env job =
      some (deleteInFlightJob (incrementJobsProcessed
              { pm with jobsInFlight := insert job.gcpJobID pm.jobsInFlight }
              false)
            job.gcpJobID,
        [Call.control job.gcpJobID GCPJobState.aborted GCPJobStateCause.other
          0]) := by
  simp only [processJob, addInFlightJob, if_neg h, assembleJob, hg]
  simp [msgPrinterNotFound, goBytes]

theorem processJob_ticket_error
    (toGCP : CUPSJobState → GCPJobState × GCPJobStateCause)
    (pm : PMState) (env : JobEnv) (job : Job) (printer : Printer)
    (e : GoString)
    (h : job.gcpJobID ∉ pm.jobsInFlight)
    (hg : pm.gcpPrintersByGCPID.get job.gcpPrinterID = some printer)
    (ht : env.ticketResult = Except.error e) :
    processJob toGCP pm env job =
      some (deleteInFlightJob (incrementJobsProcessed
              { pm with jobsInFlight := insert job.gcpJobID pm.jobsInFlight }
              false)
            job.gcpJobID,
        [Call.control job.gcpJobID GCPJobState.aborted
          GCPJobStateCause.invalidTicket 0]) := by
  simp only [processJob, addInFlightJob, if_neg h, assembleJob, hg, ht]
  simp [msgTicketFailed, goBytes]

theorem processJob_tempfile_error
    (toGCP : CUPSJobState → GCPJobState × GCPJobStateCause)
    (pm : PMState) (env : JobEnv) (job : Job) (printer : Printer)
    (options : Ticket) (e : GoString)
    (h : job.gcpJobID ∉ pm.jobsInFlight)
    (hg : pm.gcpPrintersByGCPID.get job.gcpPrinterID = some printer)
    (ht : env.ticketResult = Except.ok options)
    (hf : env.createTempFileResult = Except.error e) :
    processJob toGCP pm env job =
      some (deleteInFlightJob (incrementJobsProcessed
              { pm with jobsInFlight := insert job.gcpJobID pm.jobsInFlight }
              false)
            job.gcpJobID,
        [Call.control job.gcpJobID GCPJobState.aborted GCPJobStateCause.other
          0]) := by
  simp only [processJob, addInFlightJob, if_neg h, assembleJob, hg, ht, hf]
  simp [msgTempFileFailed, goBytes]

theorem processJob_download_error
    (toGCP : CUPSJobState → GCPJobState × GCPJobStateCause)
    (pm : PMState) (env : JobEnv) (job : Job) (printer : Printer)
    (options : Ticket) (f e : GoString)
    (h : job.gcpJobID ∉ pm.jobsInFlight)
    (hg : pm.gcpPrintersByGCPID.get job.gcpPrinterID = some printer)
    (ht : env.ticketResult = Except.ok options)
    (hf : env.createTempFileResult = Except.ok f)
    (hd : env.downloadResult = Except.error e) :
    processJob toGCP pm env job =
      some (deleteInFlightJob (incrementJobsProcessed
              { pm with jobsInFlight := insert job.gcpJobID pm.jobsInFlight }
              false)
            job.gcpJobID,
        [Call.removeFile f,
         Call.control job.gcpJobID GCPJobState.aborted
           GCPJobStateCause.printFailure 0]) := by
  simp only [processJob, addInFlightJob, if_neg h, assembleJob, hg, ht, hf, hd]
  simp [msgDownloadFailed, goBytes]

theorem processJob_print_error
    (toGCP : CUPSJobState → GCPJobState × GCPJobStateCause)
    (pm : PMState) (env : JobEnv) (job : Job) (printer : Printer)
    (options : Ticket) (f e : GoString)
    (h : job.gcpJobID ∉ pm.jobsInFlight)
    (hg : pm.gcpPrintersByGCPID.get job.gcpPrinterID = some printer)
    (ht : env.ticketResult = Except.ok options)
    (hf : env.createTempFileResult = Except.ok f)
    (hd : env.downloadResult = Except.ok ())
    (hp : env.printResult = Except.error e) :
    processJob toGCP pm env job =
      some (deleteInFlightJob (incrementJobsProcessed
              { pm with jobsInFlight := insert job.gcpJobID pm.jobsInFlight }
              false)
            job.gcpJobID,
        [Call.print printer.name f (mkJobTitle job.gcpJobID job.title)
           (submittedOwner pm.jobFullUsername job.ownerID) options,
         Call.control job.gcpJobID GCPJobState.aborted
           GCPJobStateCause.printFailure 0,
         Call.removeFile f]) := by
  simp only [processJob, addInFlightJob, if_neg h, assembleJob, hg, ht, hf, hd,
    hp]
  simp

theorem processJob_follow_some
    (toGCP : CUPSJobState → GCPJobState × GCPJobStateCause)
    (pm : PMState) (env : JobEnv) (job : Job) (printer : Printer)
    (options : Ticket) (f : GoString) (n : Nat) (pmAF : PMState)
    (followCalls : List Call)
    (h : job.gcpJobID ∉ pm.jobsInFlight)
    (hg : pm.gcpPrintersByGCPID.get job.gcpPrinterID = some printer)
    (ht : env.ticketResult = Except.ok options)
    (hf : env.createTempFileResult = Except.ok f)
    (hd : env.downloadResult = Except.ok ())
    (hp : env.printResult = Except.ok n)
    (hfol : followJob toGCP
        { pm with jobsInFlight := insert job.gcpJobID pm.jobsInFlight }
        job env.polls = some (pmAF, followCalls)) :
    processJob toGCP pm env job =
      some (deleteInFlightJob pmAF job.gcpJobID,
        Call.print printer.name f (mkJobTitle job.gcpJobID job.title)
            (submittedOwner pm.jobFullUsername job.ownerID) options ::
          (followCalls ++ [Call.removeFile f])) := by
  simp only [processJob, addInFlightJob, if_neg h, assembleJob, hg, ht, hf, hd,
    hp, hfol]
  simp

theorem processJob_follow_none
    (toGCP : CUPSJobState → GCPJobState × GCPJobStateCause)
    (pm : PMState) (env : JobEnv) (job : Job) (printer : Printer)
    (options : Ticket) (f : GoString) (n : Nat)
    (h : job.gcpJobID ∉ pm.jobsInFlight)
    (hg : pm.gcpPrintersByGCPID.get job.gcpPrinterID = some printer)
    (ht : env.ticketResult = Except.ok options)
    (hf : env.createTempFileResult = Except.ok f)
    (hd : env.downloadResult = Except.ok ())
    (hp : env.printResult = Except.ok n)
    (hfol : followJob toGCP
        { pm with jobsInFlight := insert job.gcpJobID pm.jobsInFlight }
        job env.polls = none) :
    processJob toGCP pm env job = none := by
  simp only [processJob, addInFlightJob, if_neg h, assembleJob, hg, ht, hf, hd,
    hp, hfol]
  simp

theorem delete_after_insert (pm pm2 : PMState) (gcpJobID : GoString)
    (h : gcpJobID ∉ pm.jobsInFlight)
    (h2 : pm2.jobsInFlight = insert gcpJobID pm.jobsInFlight) :
    (deleteInFlightJob pm2 gcpJobID).jobsInFlight = pm.jobsInFlight := by
  simp [deleteInFlightJob, h2, Finset.erase_insert h]

/-- C1: for every job delivered to `processJob`, if its GCP job id is
already in the in-flight set then the processor returns immediately with
no calls and an unchanged state (no Control, no Print, counters and set
untouched); otherwise the id is inserted by the first step
(`addInFlightJob` returns `true` and the set grows by exactly that id)
and the deferred `deleteInFlightJob` removes it on every exit path, so
the final in-flight set equals the initial one — at most one active
processor exists per GCP job id at any instant. -/
theorem C1_inflight_dedupe
    (toGCP : CUPSJobState → GCPJobState × GCPJobStateCause)
    (pm : PMState) (env : JobEnv) (job : Job) :
    (job.gcpJobID ∈ pm.jobsInFlight →
      processJob toGCP pm env job = some (pm, [])) ∧
    (job.gcpJobID ∉ pm.jobsInFlight →
      (addInFlightJob pm job.gcpJobID).1 = true ∧
      (addInFlightJob pm job.gcpJobID).2.jobsInFlight
        = insert job.gcpJobID pm.jobsInFlight ∧
      ∀ pm' tr, processJob toGCP pm env job = some (pm', tr) →
        pm'.jobsInFlight = pm.jobsInFlight) := by
  constructor
  · intro h
    simp [processJob, addInFlightJob, if_pos h]
  · intro h
    refine ⟨?_, ?_, ?_⟩
    · simp [addInFlightJob, if_neg h]
    · simp [addInFlightJob, if_neg h]
    · intro pm' tr hp
      cases hg : pm.gcpPrintersByGCPID.get job.gcpPrinterID with
      | none =>
        rw [processJob_printer_missing toGCP pm env job h hg] at hp
        injection hp with hp
        injection hp with hp1 hp2
        exact hp1 ▸ delete_after_insert pm _ _ h
          (by simp [incrementJobsProcessed_jobsInFlight])
      | some printer =>
        cases ht : env.ticketResult with
        | error e =>
          rw [processJob_ticket_error toGCP pm env job printer e h hg ht] at hp
          injection hp with hp
          injection hp with hp1 hp2
          exact hp1 ▸ delete_after_insert pm _ _ h
            (by simp [incrementJobsProcessed_jobsInFlight])
        | ok options =>
          cases hf : env.createTempFileResult with
          | error e =>
            rw [processJob_tempfile_error toGCP pm env job printer options e h
              hg ht hf] at hp
            injection hp with hp
            injection hp with hp1 hp2
            exact hp1 ▸ delete_after_insert pm _ _ h
              (by simp [incrementJobsProcessed_jobsInFlight])
          | ok f =>
            cases hd : env.downloadResult with
            | error e =>
              rw [processJob_download_error toGCP pm env job printer options f
                e h hg ht hf hd] at hp
              injection hp with hp
              injection hp with hp1 hp2
              exact hp1 ▸ delete_after_insert pm _ _ h
                (by simp [incrementJobsProcessed_jobsInFlight])
            | ok u =>
              cases u
              cases hpr : env.printResult with
              | error e =>
                rw [processJob_print_error toGCP pm env job printer options f
                  e h hg ht hf hd hpr] at hp
                injection hp with hp
                injection hp with hp1 hp2
                exact hp1 ▸ delete_after_insert pm _ _ h
                  (by simp [incrementJobsProcessed_jobsInFlight])
              | ok n =>
                cases hfol : followJob toGCP
                    { pm with jobsInFlight :=
                        insert job.gcpJobID pm.jobsInFlight }
                    job env.polls with
                | none =>
                  rw [processJob_follow_none toGCP pm env job printer options
                    f n h hg ht hf hd hpr hfol] at hp
                  cases hp
                | some r =>
                  obtain ⟨pmAF, followCalls⟩ := r
                  rw [processJob_follow_some toGCP pm env job printer options
                    f n pmAF followCalls h hg ht hf hd hpr hfol] at hp
                  injection hp with hp
                  injection hp with hp1 hp2
                  refine hp1 ▸ delete_after_insert pm _ _ h ?_
                  have := followLoop_jobsInFlight toGCP job env.polls
                    { cupsState := CUPSJobState.zeroState,
                      gcpState := GCPJobState.inProgress, pages := 0 }
                    { pm with jobsInFlight :=
                        insert job.gcpJobID pm.jobsInFlight }
                    pmAF followCalls hfol
                  simpa using this

/-- Witness for C1 at a concrete input: the sample job is not in flight in
`pmW`, and the run (which fails at the printer lookup) leaves the
in-flight set as it found it. -/
theorem C1_inflight_dedupe_witness :
    jobW.gcpJobID ∉ pmW.jobsInFlight ∧
    (PMState.mk pmW.gcpPrintersByGCPID 0 1 ∅ false).jobsInFlight
      = pmW.jobsInFlight :=
  ⟨by decide,
    ((C1_inflight_dedupe mapW pmW envW jobW).2 (by decide)).2.2
      (PMState.mk pmW.gcpPrintersByGCPID 0 1 ∅ false)
      [Call.control [106] GCPJobState.aborted GCPJobStateCause.other 0]
      (by decide)⟩

/-- Whether a trace contains a CUPS print submission. -/
def hasPrint (tr : List Call) : Bool :=
  tr.any fun c =>
    match c with
    | Call.print _ _ _ _ _ => true
    | _ => false

/-- Number of job control updates in a trace. -/
def countControls (tr : List Call) : Nat :=
  tr.countP fun c =>
    match c with
    | Call.control _ _ _ _ => true
    | _ => false

/-- C3 (amended): every pipeline failure before the follow phase produces
exactly one Control call reporting `Aborted` with the cause of the failing
step — `Other` for a missing printer or a temp-file failure,
`InvalidTicket` for a ticket failure, `PrintFailure` for a download or
submit failure — and increments the errored counter; no Print call is
made when the failure precedes the submit step, while on a submit failure
the single failing Print call itself has been made. -/
theorem C3_prefollow_failure_causes
    (toGCP : CUPSJobState → GCPJobState × GCPJobStateCause)
    (pm : PMState) (env : JobEnv) (job : Job)
    (h : job.gcpJobID ∉ pm.jobsInFlight) :
    (pm.gcpPrintersByGCPID.get job.gcpPrinterID = none →
      ∃ pm', processJob toGCP pm env job =
          some (pm', [Call.control job.gcpJobID GCPJobState.aborted
            GCPJobStateCause.other 0]) ∧
        pm'.jobsError = pm.jobsError + 1 ∧ pm'.jobsDone = pm.jobsDone) ∧
    (∀ printer e, pm.gcpPrintersByGCPID.get job.gcpPrinterID = some printer →
      env.ticketResult = Except.error e →
      ∃ pm', processJob toGCP pm env job =
          some (pm', [Call.control job.gcpJobID GCPJobState.aborted
            GCPJobStateCause.invalidTicket 0]) ∧
        pm'.jobsError = pm.jobsError + 1 ∧ pm'.jobsDone = pm.jobsDone) ∧
    (∀ printer options e,
      pm.gcpPrintersByGCPID.get job.gcpPrinterID = some printer →
      env.ticketResult = Except.ok options →
      env.createTempFileResult = Except.error e →
      ∃ pm', processJob toGCP pm env job =
          some (pm', [Call.control job.gcpJobID GCPJobState.aborted
            GCPJobStateCause.other 0]) ∧
        pm'.jobsError = pm.jobsError + 1 ∧ pm'.jobsDone = pm.jobsDone) ∧
    (∀ printer options f e,
      pm.gcpPrintersByGCPID.get job.gcpPrinterID = some printer →
      env.ticketResult = Except.ok options →
      env.createTempFileResult = Except.ok f →
      env.downloadResult = Except.error e →
      ∃ pm' tr, processJob toGCP pm env job = some (pm', tr) ∧
        tr = [Call.removeFile f, Call.control job.gcpJobID
          GCPJobState.aborted GCPJobStateCause.printFailure 0] ∧
        countControls tr = 1 ∧ hasPrint tr = false ∧
        pm'.jobsError = pm.jobsError + 1 ∧ pm'.jobsDone = pm.jobsDone) ∧
    (∀ printer options f e,
      pm.gcpPrintersByGCPID.get job.gcpPrinterID = some printer →
      env.ticketResult = Except.ok options →
      env.createTempFileResult = Except.ok f →
      env.downloadResult = Except.ok () →
      env.printResult = Except.error e →
      ∃ pm' tr, processJob toGCP pm env job = some (pm', tr) ∧
        tr = [Call.print printer.name f (mkJobTitle job.gcpJobID job.title)
            (submittedOwner pm.jobFullUsername job.ownerID) options,
          Call.control job.gcpJobID GCPJobState.aborted
            GCPJobStateCause.printFailure 0,
          Call.removeFile f] ∧
        countControls tr = 1 ∧ hasPrint tr = true ∧
        pm'.jobsError = pm.jobsError + 1 ∧ pm'.jobsDone = pm.jobsDone) := by
  refine ⟨?_, ?_, ?_, ?_, ?_⟩
  · intro hg
    exact ⟨_, processJob_printer_missing toGCP pm env job h hg,
      by simp [deleteInFlightJob, incrementJobsProcessed],
      by simp [deleteInFlightJob, incrementJobsProcessed]⟩
  · intro printer e hg ht
    exact ⟨_, processJob_ticket_error toGCP pm env job printer e h hg ht,
      by simp [deleteInFlightJob, incrementJobsProcessed],
      by simp [deleteInFlightJob, incrementJobsProcessed]⟩
  · intro printer options e hg ht hf
    exact ⟨_, processJob_tempfile_error toGCP pm env job printer options e h
        hg ht hf,
      by simp [deleteInFlightJob, incrementJobsProcessed],
      by simp [deleteInFlightJob, incrementJobsProcessed]⟩
  · intro printer options f e hg ht hf hd
    exact ⟨_, _,
      processJob_download_error toGCP pm env job printer options f e h hg ht
        hf hd,
      rfl, by simp [countControls], by simp [hasPrint],
      by simp [deleteInFlightJob, incrementJobsProcessed],
      by simp [deleteInFlightJob, incrementJobsProcessed]⟩
  · intro printer options f e hg ht hf hd hpr
    exact ⟨_, _,
      processJob_print_error toGCP pm env job printer options f e h hg ht hf
        hd hpr,
      rfl, by simp [countControls], by simp [hasPrint],
      by simp [deleteInFlightJob, incrementJobsProcessed],
      by simp [deleteInFlightJob, incrementJobsProcessed]⟩

/-- Counterexample to C3 as stated: at a concrete input whose CUPS submit
fails (a pipeline failure before the follow phase), the trace contains a
Print call — the failing submission itself — so the processor does not
`never call Print`. -/
theorem C3_counterexample :
    ∃ pm' tr, processJob mapW pmTW envPFW jobW = some (pm', tr) ∧
      hasPrint tr = true :=
  ⟨{ pmTW with jobsError := 1 },
   [Call.print [110] [102] [103, 99, 112, 58, 106, 32, 116] [111] [],
    Call.control [106] GCPJobState.aborted GCPJobStateCause.printFailure 0,
    Call.removeFile [102]],
   by decide, by decide⟩

/-- Witness for C3 at a concrete input: the sample job against an empty
printer table terminates with a single `Aborted/Other` control call and
one more errored job. -/
theorem C3_prefollow_failure_causes_witness :
    ∃ pm', processJob mapW pmW envW jobW =
        some (pm', [Call.control [106] GCPJobState.aborted
          GCPJobStateCause.other 0]) ∧
      pm'.jobsError = pmW.jobsError + 1 ∧ pm'.jobsDone = pmW.jobsDone := by
  have := (C3_prefollow_failure_causes mapW pmW envW jobW (by decide)).1
    (by decide)
  simpa [jobW] using this

/-- C4: whenever the temp-file creation step is reached and succeeds, the
file is removed by the time the processor exits, on every exit path:
download failure (removed inside `assembleJob`, line 388), submit
failure, follow completion and follow poll failure (the deferred removal
of line 428). -/
theorem C4_tempfile_removed
    (toGCP : CUPSJobState → GCPJobState × GCPJobStateCause)
    (pm : PMState) (env : JobEnv) (job : Job) (printer : Printer)
    (options : Ticket) (f : GoString) (pm' : PMState) (tr : List Call)
    (h : job.gcpJobID ∉ pm.jobsInFlight)
    (hg : pm.gcpPrintersByGCPID.get job.gcpPrinterID = some printer)
    (ht : env.ticketResult = Except.ok options)
    (hf : env.createTempFileResult = Except.ok f)
    (hrun : processJob toGCP pm env job = some (pm', tr)) :
    Call.removeFile f ∈ tr := by
  cases hd : env.downloadResult with
  | error e =>
    rw [processJob_download_error toGCP pm env job printer options f e h hg
      ht hf hd] at hrun
    injection hrun with hrun
    injection hrun with hrun1 hrun2
    rw [← hrun2]
    simp
  | ok u =>
    cases u
    cases hpr : env.printResult with
    | error e =>
      rw [processJob_print_error toGCP pm env job printer options f e h hg ht
        hf hd hpr] at hrun
      injection hrun with hrun
      injection hrun with hrun1 hrun2
      rw [← hrun2]
      simp
    | ok n =>
      cases hfol : followJob toGCP
          { pm with jobsInFlight := insert job.gcpJobID pm.jobsInFlight }
          job env.polls with
      | none =>
        rw [processJob_follow_none toGCP pm env job printer options f n h hg
          ht hf hd hpr hfol] at hrun
        cases hrun
      | some r =>
        obtain ⟨pmAF, followCalls⟩ := r
        rw [processJob_follow_some toGCP pm env job printer options f n pmAF
          followCalls h hg ht hf hd hpr hfol] at hrun
        injection hrun with hrun
        injection hrun with hrun1 hrun2
        rw [← hrun2]
        simp

/-- Witness for C4 at a concrete input: a run whose download fails removes
the temp file it created. -/
theorem C4_tempfile_removed_witness :
    processJob mapW pmTW envDLW jobW =
      some ({ pmTW with jobsError := 1 },
        [Call.removeFile [102],
         Call.control [106] GCPJobState.aborted
           GCPJobStateCause.printFailure 0]) ∧
    Call.removeFile [102] ∈
      [Call.removeFile [102],
       Call.control [106] GCPJobState.aborted
         GCPJobStateCause.printFailure 0] :=
  ⟨by decide,
    C4_tempfile_removed mapW pmTW envDLW jobW printerW [] [102]
      { pmTW with jobsError := 1 }
      [Call.removeFile [102],
       Call.control [106] GCPJobState.aborted
         GCPJobStateCause.printFailure 0]
      (by decide) (by decide) rfl rfl (by decide)⟩

/-! Lemmas about the reconciliation round. -/

theorem mem_collectPrinters (l : List Printer) (p : Printer) :
    p ∈ collectPrinters l ↔ p ∈ l ∧ p.name ≠ [] := by
  induction l with
  | nil => simp [collectPrinters]
  | cons q rest ih =>
    simp only [collectPrinters]
    by_cases hq : q.name ≠ []
    · rw [if_pos hq]
      simp only [List.mem_cons, ih]
      constructor
      · rintro (rfl | ⟨hm, hn⟩)
        · exact ⟨Or.inl rfl, hq⟩
        · exact ⟨Or.inr hm, hn⟩
      · rintro ⟨rfl | hm, hn⟩
        · exact Or.inl rfl
        · exact Or.inr ⟨hm, hn⟩
    · rw [if_neg hq]
      simp only [ih, List.mem_cons]
      constructor
      · rintro ⟨hm, hn⟩
        exact ⟨Or.inr hm, hn⟩
      · rintro ⟨rfl | hm, hn⟩
        · exact absurd hn hq
        · exact ⟨hm, hn⟩

theorem applyDiff_length (env : DiffEnv) (diff : PrinterDiff) :
    (applyDiff env diff).length = 1 := by
  unfold applyDiff
  cases diff.operation with
  | registerPrinter =>
    cases env.getPPDResult with
    | error e => rfl
    | ok ppd =>
      cases env.registerResult with
      | error e => rfl
      | ok u => rfl
  | updatePrinter => rfl
  | deletePrinter => rfl
  | noChangeToPrinter => rfl

theorem applyDiff_cases (env : DiffEnv) (diff : PrinterDiff) :
    applyDiff env diff = [diff.printer] ∨
      applyDiff env diff = [emptyPrinter] := by
  unfold applyDiff
  cases diff.operation with
  | registerPrinter =>
    cases env.getPPDResult with
    | error e => exact Or.inr rfl
    | ok ppd =>
      cases env.registerResult with
      | error e => exact Or.inr rfl
      | ok u => exact Or.inl rfl
  | updatePrinter => exact Or.inl rfl
  | deletePrinter => exact Or.inr rfl
  | noChangeToPrinter => exact Or.inl rfl

/-- C10: every `applyDiff` worker sends exactly one value on its result
channel — the diff's printer or the empty sentinel — so the collection
loop of `syncPrinters` receives exactly one value per diff and the round
always reaches `Refresh`. -/
theorem C10_applyDiff_one_send (env : DiffEnv) (diff : PrinterDiff)
    (diffs : List (PrinterDiff × DiffEnv)) :
    (applyDiff env diff).length = 1 ∧
    (applyDiff env diff = [diff.printer] ∨
      applyDiff env diff = [emptyPrinter]) ∧
    (diffs.flatMap fun de => applyDiff de.2 de.1).length = diffs.length := by
  refine ⟨applyDiff_length env diff, applyDiff_cases env diff, ?_⟩
  induction diffs with
  | nil => rfl
  | cons de rest ih =>
    simp only [List.flatMap_cons, List.length_append, applyDiff_length, ih,
      List.length_cons]
    omega

/-- C5 (amended): a diff whose Register step fails (at `GetPPD` or at the
cloud `Register`) emits the empty sentinel, so its printer is skipped for
the round; a failed Update is only logged — the diff's printer is still
emitted and included in the collection passed to `Refresh`; no failure
aborts the round: the refreshed table consists exactly of the emitted
printers with a nonempty name. -/
theorem C5_diff_failure_semantics (env : DiffEnv) (diff : PrinterDiff)
    (diffs : List (PrinterDiff × DiffEnv)) (table : ConcurrentPrinterMap) :
    (diff.operation = PrinterDiffOperation.registerPrinter →
      ((∃ e, env.getPPDResult = Except.error e) ∨
        (∃ e, env.registerResult = Except.error e)) →
      applyDiff env diff = [emptyPrinter]) ∧
    (diff.operation = PrinterDiffOperation.updatePrinter →
      applyDiff env diff = [diff.printer]) ∧
    (∀ p, p ∈ (syncPrintersRound diffs table).printers →
      p ∈ (diffs.flatMap fun de => applyDiff de.2 de.1) ∧ p.name ≠ []) ∧
    (∀ d e2, (d, e2) ∈ diffs →
      d.operation = PrinterDiffOperation.updatePrinter →
      d.printer.name ≠ [] →
      d.printer ∈ (syncPrintersRound diffs table).printers) := by
  refine ⟨?_, ?_, ?_, ?_⟩
  · intro hop hfail
    unfold applyDiff
    rw [hop]
    rcases hfail with ⟨e, he⟩ | ⟨e, he⟩
    · rw [he]
    · cases hppd : env.getPPDResult with
      | error e2 => rfl
      | ok ppd => rw [he]
  · intro hop
    unfold applyDiff
    rw [hop]
  · intro p hp
    simpa [syncPrintersRound, ConcurrentPrinterMap.refresh,
      mem_collectPrinters] using hp
  · intro d e2 hmem hop hn
    have hsend : applyDiff e2 d = [d.printer] := by
      unfold applyDiff
      rw [hop]
    have : d.printer ∈ diffs.flatMap fun de => applyDiff de.2 de.1 := by
      rw [List.mem_flatMap]
      exact ⟨(d, e2), hmem, by simp [hsend]⟩
    simpa [syncPrintersRound, ConcurrentPrinterMap.refresh,
      mem_collectPrinters] using And.intro this hn

/-- A diff updating `printerW`. -/
def updDiffW : PrinterDiff :=
  { operation := PrinterDiffOperation.updatePrinter, printer := printerW }

/-- An environment in which the cloud `Update` call fails. -/
def updFailEnvW : DiffEnv :=
  { getPPDResult := Except.ok [], registerResult := Except.ok (),
    canShare := false, shareResult := Except.ok (),
    updateResult := Except.error [101], deleteResult := Except.ok () }

/-- Counterexample to C5 as stated: a round with a single Update diff
whose cloud `Update` call fails still includes that printer in the
collection passed to `Refresh` — the failed printer is not skipped
(lines 234-241 log the failure and fall through to the send). -/
theorem C5_counterexample :
    (syncPrintersRound [(updDiffW, updFailEnvW)]
      { printers := [] }).printers = [printerW] := by
  decide

/-- Witness for C5 at a concrete input: the failed-update printer is a
member of the refreshed table. -/
theorem C5_diff_failure_semantics_witness :
    printerW ∈ (syncPrintersRound [(updDiffW, updFailEnvW)]
      { printers := [] }).printers :=
  (C5_diff_failure_semantics updFailEnvW updDiffW [(updDiffW, updFailEnvW)]
    { printers := [] }).2.2.2 updDiffW updFailEnvW (by simp) rfl (by decide)

/-- Characterization of one successful-poll iteration of the follow loop
(lines 483-501), with the two register-update branches written out. -/
theorem followStep_ok_eq
    (toGCP : CUPSJobState → GCPJobState × GCPJobStateCause) (job : Job)
    (regs : FollowRegs) (pm : PMState) (s : CUPSJobState) (p : Nat) :
    followStep toGCP job regs pm (Except.ok (s, p)) =
      (let regs' : FollowRegs :=
        if s ≠ regs.cupsState ∨ p ≠ regs.pages then
          { cupsState := s, gcpState := (toGCP s).1, pages := p }
        else regs
       let calls : List Call :=
        if s ≠ regs.cupsState ∨ p ≠ regs.pages then
          [Call.control job.gcpJobID (toGCP s).1 (toGCP s).2 p]
        else []
       if regs'.gcpState ≠ GCPJobState.inProgress then
         if regs'.gcpState = GCPJobState.done then
           FollowStepResult.exit (incrementJobsProcessed pm true) calls
         else
           FollowStepResult.exit (incrementJobsProcessed pm false) calls
       else FollowStepResult.next regs' pm calls) := by
  simp only [followStep]
  rcases htg : toGCP s with ⟨g, c⟩
  by_cases hch : s ≠ regs.cupsState ∨ p ≠ regs.pages
  · simp [if_pos hch, htg]
  · simp [if_neg hch]

/-- C6: on each poll of a followed job, a control update is emitted if and
only if the CUPS state or the page count changed since the previous poll
(and it carries the newly mapped state, cause and page count); the loop
exits exactly when the mapped cloud state of the current poll is not
`InProgress`, incrementing `jobsDone` on `Done` and `jobsError` on
`Aborted`; a poll failure emits `Aborted/Other` with the last known page
count, increments `jobsError`, and exits.  The hypothesis is the loop
invariant: the stored GCP state is the mapped value of the stored CUPS
state (it holds for the initial registers of `followJob` and is preserved
by every `next` outcome, as the last conjunct shows). -/
theorem C6_follow_step
    (toGCP : CUPSJobState → GCPJobState × GCPJobStateCause) (job : Job)
    (regs : FollowRegs) (pm : PMState)
    (poll : Except GoString (CUPSJobState × Nat))
    (hinv : regs.gcpState = (toGCP regs.cupsState).1) :
    (∀ e, poll = Except.error e →
      followStep toGCP job regs pm poll =
        FollowStepResult.exit (incrementJobsProcessed pm false)
          [Call.control job.gcpJobID GCPJobState.aborted
            GCPJobStateCause.other regs.pages]) ∧
    (∀ s p, poll = Except.ok (s, p) →
      ((followStep toGCP job regs pm poll).calls =
        if s ≠ regs.cupsState ∨ p ≠ regs.pages then
          [Call.control job.gcpJobID (toGCP s).1 (toGCP s).2 p]
        else []) ∧
      ((followStep toGCP job regs pm poll).isExit = true ↔
        (toGCP s).1 ≠ GCPJobState.inProgress) ∧
      ((toGCP s).1 = GCPJobState.done →
        (followStep toGCP job regs pm poll).pm.jobsDone = pm.jobsDone + 1 ∧
        (followStep toGCP job regs pm poll).pm.jobsError = pm.jobsError) ∧
      ((toGCP s).1 = GCPJobState.aborted →
        (followStep toGCP job regs pm poll).pm.jobsError = pm.jobsError + 1 ∧
        (followStep toGCP job regs pm poll).pm.jobsDone = pm.jobsDone) ∧
      (∀ regs' pm' cs,
        followStep toGCP job regs pm poll
          = FollowStepResult.next regs' pm' cs →
        regs'.gcpState = (toGCP regs'.cupsState).1)) := by
  constructor
  · rintro e rfl
    rfl
  · rintro s p rfl
    rw [followStep_ok_eq]
    dsimp only
    by_cases hch : s ≠ regs.cupsState ∨ p ≠ regs.pages
    · simp only [if_pos hch]
      cases hgs : (toGCP s).1 with
      | inProgress =>
        refine ⟨?_, ?_, ?_, ?_, ?_⟩ <;>
          simp [hgs, FollowStepResult.calls, FollowStepResult.isExit,
            FollowStepResult.pm, incrementJobsProcessed]
      | done =>
        refine ⟨?_, ?_, ?_, ?_, ?_⟩ <;>
          simp [hgs, FollowStepResult.calls, FollowStepResult.isExit,
            FollowStepResult.pm, incrementJobsProcessed]
      | aborted =>
        refine ⟨?_, ?_, ?_, ?_, ?_⟩ <;>
          simp [hgs, FollowStepResult.calls, FollowStepResult.isExit,
            FollowStepResult.pm, incrementJobsProcessed]
    · simp only [if_neg hch]
      push_neg at hch
      obtain ⟨hs, hp⟩ := hch
      subst hs
      subst hp
      rw [← hinv]
      cases hgs : regs.gcpState with
      | inProgress =>
        refine ⟨?_, ?_, ?_, ?_, ?_⟩ <;>
          simp [hgs, FollowStepResult.calls, FollowStepResult.isExit,
            FollowStepResult.pm, incrementJobsProcessed]
        rintro regs' pm' cs h1 h2 h3
        subst h1
        rw [← hinv, hgs]
      | done =>
        refine ⟨?_, ?_, ?_, ?_, ?_⟩ <;>
          simp [hgs, FollowStepResult.calls, FollowStepResult.isExit,
            FollowStepResult.pm, incrementJobsProcessed]
      | aborted =>
        refine ⟨?_, ?_, ?_, ?_, ?_⟩ <;>
          simp [hgs, FollowStepResult.calls, FollowStepResult.isExit,
            FollowStepResult.pm, incrementJobsProcessed]

/-- Witness for C6 at a concrete input: from the initial registers, a
first poll reporting `processing` with 3 pages is a change, so one
control update with the mapped in-progress state and 3 pages is
emitted. -/
theorem C6_follow_step_witness :
    (followStep mapW jobW
        { cupsState := CUPSJobState.zeroState,
          gcpState := GCPJobState.inProgress, pages := 0 }
        pmW (Except.ok (CUPSJobState.processing, 3))).calls =
      [Call.control [106] GCPJobState.inProgress GCPJobStateCause.noCause
        3] := by
  have h := ((C6_follow_step mapW jobW
      { cupsState := CUPSJobState.zeroState,
        gcpState := GCPJobState.inProgress, pages := 0 }
      pmW (Except.ok (CUPSJobState.processing, 3)) (by decide)).2
      CUPSJobState.processing 3 rfl).1
  simpa [jobW, mapW] using h

/-- C2 (evaluation at the failing input): the reconciliation loop,
delivered a quit event and then a timer tick, acknowledges the quit and
then still runs a reconciliation round — the `break` at line 160 leaves
only the enclosing `select`, not the `for` loop, so the loop does not
terminate after `Quit()` returns. -/
theorem C2_quit_does_not_terminate :
    syncPrintersPeriodicallyLoop [LoopEvent.quit, LoopEvent.tick] =
      [LoopCall.ackQuit, LoopCall.syncRound] := rfl

/-- Minimality facts about the ping-interval fold, for any initial
accumulator. -/
theorem pingFold_spec (l : List Printer) (acc : Int) :
    (List.foldl
        (fun acc p =>
          if p.xmppPingInterval < acc then p.xmppPingInterval else acc)
        acc l ≤ acc) ∧
    (List.foldl
        (fun acc p =>
          if p.xmppPingInterval < acc then p.xmppPingInterval else acc)
        acc l = acc ∨
      List.foldl
        (fun acc p =>
          if p.xmppPingInterval < acc then p.xmppPingInterval else acc)
        acc l ∈ l.map (fun p => p.xmppPingInterval)) ∧
    (∀ p ∈ l,
      List.foldl
        (fun acc p =>
          if p.xmppPingInterval < acc then p.xmppPingInterval else acc)
        acc l ≤ p.xmppPingInterval) := by
  induction l generalizing acc with
  | nil => simp
  | cons q rest ih =>
    simp only [List.foldl_cons, List.map_cons, List.mem_cons]
    by_cases hq : q.xmppPingInterval < acc
    · rw [if_pos hq]
      obtain ⟨h1, h2, h3⟩ := ih q.xmppPingInterval
      refine ⟨le_trans h1 (le_of_lt hq), ?_, ?_⟩
      · rcases h2 with h2 | h2
        · exact Or.inr (Or.inl h2)
        · exact Or.inr (Or.inr h2)
      · rintro p (rfl | hp)
        · exact h1
        · exact h3 p hp
    · rw [if_neg hq]
      obtain ⟨h1, h2, h3⟩ := ih acc
      push_neg at hq
      refine ⟨h1, ?_, ?_⟩
      · rcases h2 with h2 | h2
        · exact Or.inl h2
        · exact Or.inr (Or.inr h2)
      · rintro p (rfl | hp)
        · exact le_trans h1 hq
        · exact h3 p hp

/-- C7: the connector-wide XMPP ping interval computed at construction is
the minimum of `XMPPPingInterval` over the printers of the initial cloud
list (it is one of them and bounds all of them below), and over the empty
printer set it is `math.MaxInt64`, the unbounded sentinel.  The bound
hypothesis says each interval is a valid `int64` value, which every Go
`time.Duration` is. -/
theorem C7_min_ping_interval (printers : List Printer)
    (hne : printers ≠ [])
    (hb : ∀ p ∈ printers, p.xmppPingInterval ≤ maxInt64) :
    connectorXMPPPingInterval printers
        ∈ printers.map (fun p => p.xmppPingInterval) ∧
    (∀ p ∈ printers,
      connectorXMPPPingInterval printers ≤ p.xmppPingInterval) ∧
    connectorXMPPPingInterval [] = maxInt64 := by
  obtain ⟨h1, h2, h3⟩ := pingFold_spec printers maxInt64
  refine ⟨?_, ?_, rfl⟩
  · rcases h2 with h2 | h2
    · obtain ⟨q, qs, rfl⟩ := List.exists_cons_of_ne_nil hne
      have hq := h3 q (List.mem_cons_self q qs)
      have hqb := hb q (List.mem_cons_self q qs)
      rw [← h2] at hqb
      have heq : q.xmppPingInterval = connectorXMPPPingInterval (q :: qs) :=
        le_antisymm hqb hq
      rw [← heq]
      simp
    · exact h2
  · exact h3

/-- Witness for C7 at a concrete input: over the one-printer list the
computed interval is that printer's interval. -/
theorem C7_min_ping_interval_witness :
    connectorXMPPPingInterval [printerW]
      ∈ [printerW].map (fun p => p.xmppPingInterval) :=
  (C7_min_ping_interval [printerW] (by decide) (by decide)).1

/-- C8: the submitted CUPS job title is the concatenation
`"gcp:" + CloudJobID + " " + Title` truncated to its first 255 bytes, and
its byte length never exceeds 255, whatever the original title. -/
theorem C8_title_truncation (gcpJobID title : GoString) :
    mkJobTitle gcpJobID title =
      (goBytes "gcp:" ++ gcpJobID ++ goBytes " " ++ title).take 255 ∧
    (mkJobTitle gcpJobID title).length ≤ 255 := by
  unfold mkJobTitle
  by_cases hl :
      (goBytes "gcp:" ++ gcpJobID ++ goBytes " " ++ title).length > 255
  · rw [if_pos hl]
    refine ⟨rfl, ?_⟩
    simp [List.length_take]
  · rw [if_neg hl]
    push_neg at hl
    exact ⟨(List.take_of_length_le hl).symm, hl⟩

/-- The split of a Go string never produces an empty slice list. -/
theorem splitOnByte_ne_nil (sep : Nat) (l : GoString) :
    splitOnByte sep l ≠ [] := by
  cases l with
  | nil => simp [splitOnByte]
  | cons b rest =>
    simp only [splitOnByte]
    split
    · simp
    · split <;> simp

/-- The first slice of the split is the longest separator-free head. -/
theorem splitOnByte_head (sep : Nat) (l : GoString) :
    (splitOnByte sep l).headD [] = l.takeWhile (fun b => b != sep) := by
  induction l with
  | nil => rfl
  | cons b rest ih =>
    simp only [splitOnByte]
    cases h : splitOnByte sep rest with
    | nil => exact absurd h (splitOnByte_ne_nil sep rest)
    | cons s ss =>
      dsimp only
      by_cases hb : b = sep
      · rw [if_pos hb]
        subst hb
        simp [List.takeWhile_cons]
      · rw [if_neg hb]
        have hs : s = rest.takeWhile (fun x => x != sep) := by
          rw [← ih, h]
          rfl
        simp [List.takeWhile_cons, hb, hs]

/-- C9: when `jobFullUsername` is false the owner passed to CUPS is the
prefix of `OwnerID` before its first `@` (byte 64) — and therefore
contains no `@` — while with `jobFullUsername` true the owner id is
passed through unchanged. -/
theorem C9_owner_normalization (ownerID : GoString) :
    submittedOwner true ownerID = ownerID ∧
    submittedOwner false ownerID = ownerID.takeWhile (fun b => b != 64) ∧
    64 ∉ submittedOwner false ownerID := by
  have he : submittedOwner false ownerID
      = ownerID.takeWhile (fun b => b != 64) :=
    splitOnByte_head 64 ownerID
  refine ⟨rfl, he, ?_⟩
  rw [he]
  intro hmem
  have := List.mem_takeWhile_imp hmem
  simp at this
